import Mathlib

/-!
Shallow embedding of `app.py` (AL_Support_Bot): a FastAPI webhook relay that
receives Telegram updates, calls the Gemini completion endpoint, and sends the
generated text back to the originating chat.

Modelling conventions:
* JSON values are the inductive `Json`; Python truthiness, `dict.get`,
  subscripting, the `in` membership test and `str.strip` are embedded with
  their Python semantics (`str.strip` is modelled as the ASCII-whitespace
  strip `pyStripStr`).
* The request body is `Option (List (String × Json))`: the handler annotates
  the parsed body as `Dict[str, Any]`; `none` models a body on which
  `req.json()` raises.
* The two outbound HTTP calls are recorded in a trace (`List Call`).  Their
  outcomes come from an `Env`: the Gemini call either raises or yields a
  response `(status, body text, parsed JSON)`, and the n-th `telegram_send`
  call either succeeds or raises the given exception.
* Exceptions are the inductive `PyError`; an exception that escapes the
  handler is the `HandlerResult.raised` outcome (FastAPI would turn it into
  an HTTP 500, i.e. no `{"ok": ...}` acknowledgment is produced).
* The rendering of `str(e)` for generic exceptions (`pyErrorStr`) is
  abstracted; no property below depends on its exact text.
-/

/-- JSON values, as produced by `req.json()` / `r.json()`. -/
inductive Json where
  | null : Json
  | bool : Bool → Json
  | num : Int → Json
  | str : String → Json
  | arr : List Json → Json
  | obj : List (String × Json) → Json
deriving Repr

/-- Python truthiness of a JSON value (`bool(x)`). -/
def Json.truthy : Json → Bool
  | .null => false
  | .bool b => b
  | .num n => n != 0
  | .str s => s != ""
  | .arr xs => !xs.isEmpty
  | .obj kvs => !kvs.isEmpty

/-- Key lookup in a JSON object (Python `dict` access on the parsed body). -/
def jLookup : List (String × Json) → String → Option Json
  | [], _ => none
  | (k, v) :: rest, key => if k = key then some v else jLookup rest key

/-- Truthiness of `dict.get`-style results: `None` (absent key) is falsy. -/
def optTruthy : Option Json → Bool
  | none => false
  | some j => j.truthy

/-- Python `not x` on a `dict.get` result. -/
def optFalsy (o : Option Json) : Bool := !optTruthy o

/-- Python `x or y` on two `dict.get` results: `x` if truthy, else `y`. -/
def pyOr (a b : Option Json) : Option Json :=
  if optTruthy a then a else b

/-- Exceptions that the embedded code can raise. -/
inductive PyError where
  | keyError : String → PyError
  | typeError : PyError
  | attributeError : PyError
  | indexError : PyError
  | jsonDecodeError : PyError
  | httpStatusError : Nat → String → PyError
  | transportError : String → PyError
deriving Repr, DecidableEq

/-- Contiguous-substring test on character lists. -/
def charSubstr : List Char → List Char → Bool
  | pat, [] => pat.isEmpty
  | pat, c :: rest => pat.isPrefixOf (c :: rest) || charSubstr pat rest

/-- Python `needle in j`: key test for dicts, membership for lists (equality
with a string holds only for an equal string), substring test for strings;
`TypeError` on non-containers. -/
def pyIn (needle : String) : Json → Except PyError Bool
  | .obj kvs => .ok (jLookup kvs needle).isSome
  | .arr xs => .ok (xs.any fun x => match x with | .str s => s == needle | _ => false)
  | .str s => .ok (charSubstr needle.toList s.toList)
  | _ => .error .typeError

/-- Python `j[k]` for a string key: dict lookup (`KeyError` when absent),
`TypeError` on any non-dict value. -/
def pySubscript (j : Json) (k : String) : Except PyError Json :=
  match j with
  | .obj kvs =>
    match jLookup kvs k with
    | some v => .ok v
    | none => .error (.keyError k)
  | _ => .error .typeError

/-- Python `j.get(k, d)`: `AttributeError` unless `j` is a dict. -/
def pyGetD (j : Json) (k : String) (d : Json) : Except PyError Json :=
  match j with
  | .obj kvs => .ok ((jLookup kvs k).getD d)
  | _ => .error .attributeError

/-- Python `j[0]`: head of a list (`IndexError` when empty), first character
of a string, `KeyError` for dicts (no integer key in the model), `TypeError`
otherwise. -/
def pyIndex0 : Json → Except PyError Json
  | .arr [] => .error .indexError
  | .arr (x :: _) => .ok x
  | .str s => if s.isEmpty then .error .indexError else .ok (.str (String.singleton s.front))
  | .obj _ => .error (.keyError "0")
  | _ => .error .typeError

/-- Whitespace characters removed by Python `str.strip()` (ASCII part). -/
def isPySpace (c : Char) : Bool :=
  c = ' ' || c = '\t' || c = '\n' || c = '\x0d' || c = '\x0b' || c = '\x0c'

/-- Drop the longest run of characters satisfying `p` from the front. -/
def dropLeading (p : Char → Bool) : List Char → List Char
  | [] => []
  | c :: rest => if p c then dropLeading p rest else c :: rest

/-- Python `s.strip()` on a string: remove leading and trailing whitespace. -/
def pyStripStr (s : String) : String :=
  String.mk (List.reverse (dropLeading isPySpace (List.reverse (dropLeading isPySpace s.toList))))

/-- Python `j.strip()`: `AttributeError` unless `j` is a string. -/
def pyStrip : Json → Except PyError String
  | .str s => .ok (pyStripStr s)
  | _ => .error .attributeError

/-- Abstracted `str(e)` rendering used in the `f"Error: {e}"` message. -/
def pyErrorStr : PyError → String
  | .keyError k => "\x27" ++ k ++ "\x27"
  | .typeError => "TypeError"
  | .attributeError => "AttributeError"
  | .indexError => "list index out of range"
  | .jsonDecodeError => "JSONDecodeError"
  | .httpStatusError st b => "HTTP status " ++ Nat.repr st ++ ": " ++ b
  | .transportError m => m

/-- The substring-containment property (`pat in s` for Python strings). -/
def strContains (s pat : String) : Prop := ∃ pre post, s = pre ++ pat ++ post

/-- `COMMANDS_TEXT` from `app.py`. -/
def COMMANDS_TEXT : String :=
  "/quiz [subject] [topic] [n] — Generate exam-style questions with feedback.\n" ++
  "/flashcards [subject] [topic] [count] — Key concept flashcards.\n" ++
  "/practice [subject] [topic] [time] — Mini exam with marking scheme.\n" ++
  "/drill [subject] [topic] [level] — Adaptive drills adjusting difficulty.\n" ++
  "/check [solution] — Mark mistakes, explain corrections.\n" ++
  "/strategy [subject/topic] — Revision strategy and weak area analysis.\n" ++
  "/progress — Session progress report.\n" ++
  "/stats — Accuracy and performance stats.\n" ++
  "/leaderboard — Compare scores with group/self.\n" ++
  "/preset [exam/paper] — Load paper-style formats.\n" ++
  "/socratic on|off — Toggle questioning.\n" ++
  "/hint [1|2|3] — Set hint depth.\n" ++
  "/save — Export progress code.\n" ++
  "/load [code] — Import saved session.\n" ++
  "/redo — Repeat last activity with new variations.\n" ++
  "/next — Auto-pick next recommended task.\n" ++
  "/random [n] — Generate random mix of questions.\n" ++
  "/simple on|off — Toggle simpler language and shorter math solutions (off by default).\n" ++
  "/lang [en|si|ta] — Switch language (forced English output regardless).\n" ++
  "/help — Show all commands and examples."

/-- `FOOTER` from `app.py`. -/
def FOOTER : String := "\n---\n**Developed by Senula Akarsha ✅**\n---"

/-- `SYSTEM_INSTRUCTIONS` from `app.py` (the f-string with `COMMANDS_TEXT`
and `FOOTER` already interpolated, as Python does at module load). -/
def SYSTEM_INSTRUCTIONS : String :=
  "You are an Advanced Level (A/L) multi-subject tutor (Mathematics, Physics, Chemistry, Biology). " ++
  "Respond ONLY to educational topics; if non-educational, refuse politely in BOTH English and Sinhala and redirect to study topics.\n\n" ++
  "STYLE:\n" ++
  "- Restate the question simply.\n" ++
  "- Provide a short \x27Plan\x27 before solving.\n" ++
  "- Solve step by step; track units/significant figures; include checks and a TL;DR.\n" ++
  "- Teach exam tricks and common mistakes.\n\n" ++
  "SUBJECT RULES:\n" ++
  "- Math/Physics/Chemistry: formulas and units preserved; show steps.\n" ++
  "- Biology: process explanations step by step.\n" ++
  "- Programming: full code with comments + example output.\n" ++
  "- Writing/History: outline + key evidence.\n\n" ++
  "LANGUAGE:\n" ++
  "- Always produce BOTH English and Sinhala full answers.\n" ++
  "- Use Sri Lankan A/L textbook Sinhala for scientific terms (e.g., atom=පරමාණුව, molecule=අනුව, nucleus=න්‍යෂ්ටිය, " ++
  "atomic number=පරමාණුක ක්‍රමාංකය, mass number=ස්කන්ධ ක්‍රමාංකය, solvent=ද්‍රාවකය, catalyst=උත්ප්‍රේරකය, diffraction=විවර්තනය). " ++
  "Preserve formulas/symbols/units exactly.\n\n" ++
  "FILES & OCR:\n" ++
  "- If text seems from a scan, be STRICT: do not guess unclear parts; return transcript, mark low-confidence, ask to confirm, offer scan tips.\n" ++
  "- For diagrams: describe what is visible; list missing labels and ask for them.\n\n" ++
  "INTERACTIVITY:\n" ++
  "- Support quizzes, flashcards, practice, drills, checks, strategy, stats, progress, /socratic, /hint, /simple.\n\n" ++
  "OUTPUT WRAPPER (MANDATORY):\n" ++
  "**Answer (English):**\n<full English explanation>\n\n" ++
  "**Answer (Sinhala):**\n<full Sinhala explanation with A/L textbook terminology>\n\n" ++
  "After that, append this command list and footer EXACTLY:\n" ++
  COMMANDS_TEXT ++ "\n" ++ FOOTER ++ "\n"

/-- `PROMPT_TEMPLATE.format(system=SYSTEM_INSTRUCTIONS, user=user_text)`:
the rendered prompt string sent to the completion provider. -/
def buildPrompt (user : String) : String :=
  SYSTEM_INSTRUCTIONS ++ "\n\nUser question:\n" ++ user ++ "\n\nRemember:\n" ++
  "- Restate the question simply.\n" ++
  "- Provide a short Plan.\n" ++
  "- Solve with clear steps, units, and checks; add TL;DR and exam tips.\n" ++
  "- If non-educational, refuse politely in both English and Sinhala and redirect to learning.\n" ++
  "- Return BOTH English and Sinhala sections exactly as specified, then append commands and the footer."

/-- The fixed bilingual fallback message substituted for empty provider
output (lines 121-125 of `app.py`). -/
def fallbackText : String :=
  "**Answer (English):**\nSorry, I couldn\x27t generate a response.\n\n" ++
  "**Answer (Sinhala):**\nකණගාටුයි, පිළිතුරක් ලබා දිය නොහැකි විය.\n\n" ++
  COMMANDS_TEXT ++ FOOTER

/-- Environment-provided configuration, loaded at process start. -/
structure Config where
  telegramToken : String
  geminiKey : String
  webhookSecret : String

/-- The JSON payload of one `sendMessage` call, as built by `telegram_send`. -/
structure SendCall where
  chat_id : Json
  text : String
  parse_mode : String
  reply_to_message_id : Option Json
deriving Repr

/-- One outbound HTTP call made by the handler. -/
inductive Call where
  | gemini : String → Call
  | send : SendCall → Call
deriving Repr

/-- Behaviour of the completion-provider endpoint for the (single) call the
handler makes: the POST either raises, or yields a response with a status
code, a body text, and the result of `r.json()` (`none` when the body is not
JSON, in which case `r.json()` raises). -/
inductive GeminiBehavior where
  | raises : PyError → GeminiBehavior
  | responds : Nat → String → Option Json → GeminiBehavior

/-- One invocation's environment: the Gemini behaviour and the outcome of
each successive `telegram_send` call (`none` = the POST succeeds). -/
structure Env where
  gemini : GeminiBehavior
  sends : List (Option PyError)

/-- Outcome of the `i`-th `telegram_send` call under `env`. -/
def sendOutcome (env : Env) (i : Nat) : Option PyError :=
  env.sends.getD i none

/-- `telegram_send(chat_id, text, reply_to)`: the payload includes
`reply_to_message_id` only when `reply_to` is truthy (`if reply_to:`). -/
def telegram_send (chat_id : Json) (text : String) (reply_to : Option Json) : SendCall :=
  { chat_id := chat_id
    text := text
    parse_mode := "Markdown"
    reply_to_message_id := if optTruthy reply_to then reply_to else none }

/-- `.get("text", "").strip()` applied to the first part (end of line 94). -/
def extractFromPart (p0 : Json) : Except PyError String :=
  match pyGetD p0 "text" (Json.str "") with
  | .error e => .error e
  | .ok t => pyStrip t

/-- `.get("parts", [{}])[0]` then text extraction (line 94, continued). -/
def extractFromContent (cont : Json) : Except PyError String :=
  match pyGetD cont "parts" (Json.arr [Json.obj []]) with
  | .error e => .error e
  | .ok parts =>
    match pyIndex0 parts with
    | .error e => .error e
    | .ok p0 => extractFromPart p0

/-- `.get("content", {})` then parts extraction (line 94, continued). -/
def extractFromCandidate (c0 : Json) : Except PyError String :=
  match pyGetD c0 "content" (Json.obj []) with
  | .error e => .error e
  | .ok cont => extractFromContent cont

/-- Line 94 of `app.py`:
`data.get("candidates", [{}])[0].get("content", {}).get("parts", [{}])[0].get("text", "").strip()`. -/
def extractText (data : Json) : Except PyError String :=
  match pyGetD data "candidates" (Json.arr [Json.obj []]) with
  | .error e => .error e
  | .ok c =>
    match pyIndex0 c with
    | .error e => .error e
    | .ok c0 => extractFromCandidate c0

/-- `gemini_generate`: raise transport errors, `raise_for_status()` on a
non-2xx response (httpx raises for every status outside 200-299), parse the
body, extract the text. -/
def gemini_generate (b : GeminiBehavior) : Except PyError String :=
  match b with
  | .raises e => .error e
  | .responds status bodyText payload =>
    if 200 ≤ status ∧ status < 300 then
      match payload with
      | none => .error .jsonDecodeError
      | some data => extractText data
    else .error (.httpStatusError status bodyText)

/-- Outcome of one webhook invocation: a JSON acknowledgment, or an
exception that escaped the handler (FastAPI then answers HTTP 500 and no
acknowledgment is produced). -/
inductive HandlerResult where
  | response : Bool → Option String → HandlerResult
  | raised : PyError → HandlerResult
deriving Repr, DecidableEq

/-- The two `except` branches (lines 127-130): an `httpx.HTTPStatusError`
yields the `API error: {status} – {body}` message, any other exception the
generic `Error: {e}` message; the reporting send itself may raise, in which
case the exception escapes the handler. -/
def exceptBranch (chat_id mid : Json) (e : PyError) (env : Env) (i : Nat)
    (calls : List Call) : HandlerResult × List Call :=
  let text :=
    match e with
    | .httpStatusError st b => "API error: " ++ Nat.repr st ++ " – " ++ b
    | _ => "Error: " ++ pyErrorStr e
  let sc := telegram_send chat_id text (some mid)
  match sendOutcome env i with
  | none => (.response true none, calls ++ [Call.send sc])
  | some e2 => (.raised e2, calls ++ [Call.send sc])

/-- The `try` block (lines 117-130): build the prompt, call Gemini,
substitute the fallback for empty output, send; exceptions go to
`exceptBranch`. -/
def protectedBlock (chat_id mid : Json) (user_text : String) (env : Env) :
    HandlerResult × List Call :=
  let prompt := buildPrompt user_text
  match gemini_generate env.gemini with
  | .ok out0 =>
    let out := if out0 = "" then fallbackText else out0
    let sc := telegram_send chat_id out (some mid)
    match sendOutcome env 0 with
    | none => (.response true none, [Call.gemini prompt, Call.send sc])
    | some e => exceptBranch chat_id mid e env 1 [Call.gemini prompt, Call.send sc]
  | .error e => exceptBranch chat_id mid e env 0 [Call.gemini prompt]

/-- Lines 113-115, evaluated before the `try` block:
`msg["chat"]["id"]`, `msg["message_id"]`, `msg["text"].strip()`. -/
def extractFields (m : Json) : Except PyError (Json × Json × String) :=
  match pySubscript m "chat" with
  | .error e => .error e
  | .ok chat =>
    match pySubscript chat "id" with
    | .error e => .error e
    | .ok chat_id =>
      match pySubscript m "message_id" with
      | .error e => .error e
      | .ok mid =>
        match pySubscript m "text" with
        | .error e => .error e
        | .ok t =>
          match pyStrip t with
          | .error e => .error e
          | .ok user_text => .ok (chat_id, mid, user_text)

/-- Line 109: `update.get("message") or update.get("edited_message")`. -/
def selectedMessage (update : List (String × Json)) : Option Json :=
  pyOr (jLookup update "message") (jLookup update "edited_message")

/-- Lines 108-132: everything after the secret check. -/
def handleUpdate (update : List (String × Json)) (env : Env) :
    HandlerResult × List Call :=
  match selectedMessage update with
  | none => (.response true none, [])
  | some m =>
    if !m.truthy then (.response true none, [])
    else
      match pyIn "text" m with
      | .error e => (.raised e, [])
      | .ok b =>
        if !b then (.response true none, [])
        else
          match extractFields m with
          | .error e => (.raised e, [])
          | .ok (chat_id, mid, user_text) => protectedBlock chat_id mid user_text env

/-- The webhook endpoint `POST /telegram/{secret}` (lines 103-132).
`body = none` models a request body on which `req.json()` raises. -/
def webhook (cfg : Config) (secret : String)
    (body : Option (List (String × Json))) (env : Env) :
    HandlerResult × List Call :=
  if secret = cfg.webhookSecret then
    match body with
    | none => (.raised .jsonDecodeError, [])
    | some update => handleUpdate update env
  else (.response false (some "bad secret"), [])

/-- Two successive invocations of the handler on the same request: the pair
of results and the combined outbound-call trace.  The handler keeps no state
between invocations, so this is literally running `webhook` twice. -/
def processTwice (cfg : Config) (secret : String)
    (body : Option (List (String × Json))) (env : Env) :
    (HandlerResult × HandlerResult) × List Call :=
  let r1 := webhook cfg secret body env
  let r2 := webhook cfg secret body env
  ((r1.1, r2.1), r1.2 ++ r2.2)

/-- A part object is well-shaped when a present `"text"` field is a string. -/
def wellShapedPart : Json → Bool
  | .obj kvs =>
    match jLookup kvs "text" with
    | none => true
    | some (.str _) => true
    | some _ => false
  | _ => false

/-- A content object is well-shaped when a present `"parts"` field is a
non-empty list whose head is a well-shaped part. -/
def wellShapedContent : Json → Bool
  | .obj kvs =>
    match jLookup kvs "parts" with
    | none => true
    | some (.arr (p :: _)) => wellShapedPart p
    | some _ => false
  | _ => false

/-- A candidate object is well-shaped when a present `"content"` field is a
well-shaped content object. -/
def wellShapedCandidate : Json → Bool
  | .obj kvs =>
    match jLookup kvs "content" with
    | none => true
    | some c => wellShapedContent c
  | _ => false

/-- The whole provider payload is well-shaped when it is an object whose
present `"candidates"` field is a non-empty list with a well-shaped head. -/
def wellShapedPayload : Json → Bool
  | .obj kvs =>
    match jLookup kvs "candidates" with
    | none => true
    | some (.arr (c :: _)) => wellShapedCandidate c
    | some _ => false
  | _ => false

/-- Total text extraction from a part: an absent `"text"` field gives `""`. -/
def cleanFromPart : Json → String
  | .obj kvs =>
    match (jLookup kvs "text").getD (Json.str "") with
    | .str s => pyStripStr s
    | _ => ""
  | _ => ""

/-- Total text extraction from a content object: an absent `"parts"` field
falls back to the default singleton part. -/
def cleanFromContent : Json → String
  | .obj kvs =>
    match (jLookup kvs "parts").getD (Json.arr [Json.obj []]) with
    | .arr (p :: _) => cleanFromPart p
    | _ => ""
  | _ => ""

/-- Total text extraction from a candidate: an absent `"content"` field
falls back to the empty object. -/
def cleanFromCandidate : Json → String
  | .obj kvs => cleanFromContent ((jLookup kvs "content").getD (Json.obj []))
  | _ => ""

/-- Total version of the provider-response text extraction: on well-shaped
payloads it agrees with `extractText`, and any absent field yields `""`. -/
def cleanExtract : Json → String
  | .obj kvs =>
    match (jLookup kvs "candidates").getD (Json.arr [Json.obj []]) with
    | .arr (c :: _) => cleanFromCandidate c
    | _ => ""
  | _ => ""

/-- A JSON object with a successful key lookup is non-empty, hence truthy. -/
theorem obj_truthy_of_lookup {kvs : List (String × Json)} {k : String} {v : Json}
    (h : jLookup kvs k = some v) : Json.truthy (Json.obj kvs) = true := by
  cases kvs with
  | nil => simp [jLookup] at h
  | cons a as => simp [Json.truthy, List.isEmpty]

/-- Reduction of the handler to the protected block: with the right secret
and a message carrying `chat.id`, `message_id` and a string `text`, the
handler reaches the `try` block with the stripped text. -/
theorem webhook_reaches_protected
    (cfg : Config) (update : List (String × Json)) (env : Env)
    (mkvs ckvs : List (String × Json)) (chatId mid : Json) (t : String)
    (h1 : selectedMessage update = some (Json.obj mkvs))
    (h2 : jLookup mkvs "chat" = some (Json.obj ckvs))
    (h3 : jLookup ckvs "id" = some chatId)
    (h4 : jLookup mkvs "message_id" = some mid)
    (h5 : jLookup mkvs "text" = some (Json.str t)) :
    webhook cfg cfg.webhookSecret (some update) env =
      protectedBlock chatId mid (pyStripStr t) env := by
  have htr := obj_truthy_of_lookup h5
  simp [webhook, handleUpdate, h1, htr, pyIn, h5, extractFields, pySubscript, h2, h3, h4, pyStrip]

/-- When the first `telegram_send` attempt succeeds, the protected block
always acknowledges and the trace is one Gemini call followed by one send
threaded to `mid`, whatever the Gemini behaviour. -/
theorem protected_trace (chatId mid : Json) (ut : String) (env : Env)
    (hsend : sendOutcome env 0 = none) :
    ∃ txt, protectedBlock chatId mid ut env =
      (.response true none,
       [Call.gemini (buildPrompt ut), Call.send (telegram_send chatId txt (some mid))]) := by
  cases hg : gemini_generate env.gemini with
  | ok out0 =>
    by_cases h0 : out0 = ""
    · exact ⟨fallbackText, by simp [protectedBlock, hg, h0, hsend]⟩
    · exact ⟨out0, by simp [protectedBlock, hg, h0, hsend]⟩
  | error e =>
    refine ⟨match e with
      | .httpStatusError st b => "API error: " ++ Nat.repr st ++ " – " ++ b
      | _ => "Error: " ++ pyErrorStr e, ?_⟩
    cases e <;> simp [protectedBlock, hg, exceptBranch, hsend]

/-- C1 counterexample: an update whose body contains a message with a text
field, but no `chat` object, makes the handler raise a `KeyError` before the
protected block; no completion-provider call and no send call occur, so the
claimed "exactly one completion call followed by exactly one send call" is
false for this input. -/
theorem claim_C1_counterexample :
    webhook ⟨"tok", "key", "s"⟩ "s"
      (some [("message", Json.obj [("text", Json.str "hi")])])
      ⟨GeminiBehavior.responds 200 "" (some (Json.obj [])), []⟩ =
    (HandlerResult.raised (PyError.keyError "chat"), []) := rfl

/-- C1 (amended): for every inbound request whose path secret matches and
whose body selects a message object carrying a string `text`, a `chat`
object with an `id`, and a truthy `message_id`, and whose send call does not
raise, the handler makes exactly one completion-provider call followed by
exactly one messaging-platform send call, in that order, and the send call's
reply-to field equals the inbound message identifier. -/
theorem claim_C1 (cfg : Config) (update : List (String × Json)) (env : Env)
    (mkvs ckvs : List (String × Json)) (chatId mid : Json) (t : String)
    (h1 : selectedMessage update = some (Json.obj mkvs))
    (h2 : jLookup mkvs "chat" = some (Json.obj ckvs))
    (h3 : jLookup ckvs "id" = some chatId)
    (h4 : jLookup mkvs "message_id" = some mid)
    (h5 : jLookup mkvs "text" = some (Json.str t))
    (hmid : mid.truthy = true)
    (hsend : sendOutcome env 0 = none) :
    ∃ p sc, (webhook cfg cfg.webhookSecret (some update) env).2 =
      [Call.gemini p, Call.send sc] ∧ sc.reply_to_message_id = some mid := by
  rw [webhook_reaches_protected cfg update env mkvs ckvs chatId mid t h1 h2 h3 h4 h5]
  obtain ⟨txt, heq⟩ := protected_trace chatId mid (pyStripStr t) env hsend
  exact ⟨buildPrompt (pyStripStr t), telegram_send chatId txt (some mid),
    by rw [heq], by simp [telegram_send, optTruthy, hmid]⟩

/-- C1 witness: the amended statement at a concrete well-formed update. -/
theorem claim_C1_witness :
    ∃ p sc, (webhook ⟨"tok", "key", "s"⟩ "s"
      (some [("message", Json.obj
        [("chat", Json.obj [("id", Json.num 5)]),
         ("message_id", Json.num 7), ("text", Json.str "hi")])])
      ⟨GeminiBehavior.responds 200 "" (some (Json.obj [])), []⟩).2 =
      [Call.gemini p, Call.send sc] ∧
      sc.reply_to_message_id = some (Json.num 7) :=
  claim_C1 ⟨"tok", "key", "s"⟩
    [("message", Json.obj
      [("chat", Json.obj [("id", Json.num 5)]),
       ("message_id", Json.num 7), ("text", Json.str "hi")])]
    ⟨GeminiBehavior.responds 200 "" (some (Json.obj [])), []⟩
    [("chat", Json.obj [("id", Json.num 5)]),
     ("message_id", Json.num 7), ("text", Json.str "hi")]
    [("id", Json.num 5)] (Json.num 5) (Json.num 7) "hi"
    rfl rfl rfl rfl rfl (by decide) rfl

/-- C2: if the provider responds 429 with body `rate limited`, the handler
sends exactly one chat message — whose text contains both `429` and
`rate limited` — threaded to the inbound message, and still acknowledges
with `ok = true` (shown for any well-formed text update whose reporting
send succeeds). -/
theorem claim_C2 (cfg : Config) (update : List (String × Json)) (env : Env)
    (mkvs ckvs : List (String × Json)) (chatId mid : Json) (t : String)
    (pl : Option Json)
    (h1 : selectedMessage update = some (Json.obj mkvs))
    (h2 : jLookup mkvs "chat" = some (Json.obj ckvs))
    (h3 : jLookup ckvs "id" = some chatId)
    (h4 : jLookup mkvs "message_id" = some mid)
    (h5 : jLookup mkvs "text" = some (Json.str t))
    (hg : env.gemini = GeminiBehavior.responds 429 "rate limited" pl)
    (hsend : sendOutcome env 0 = none) :
    webhook cfg cfg.webhookSecret (some update) env =
      (.response true none,
       [Call.gemini (buildPrompt (pyStripStr t)),
        Call.send (telegram_send chatId "API error: 429 – rate limited" (some mid))]) ∧
    strContains "API error: 429 – rate limited" "429" ∧
    strContains "API error: 429 – rate limited" "rate limited" := by
  have hcond : ¬(200 ≤ 429 ∧ 429 < 300) := by decide
  have hge : gemini_generate env.gemini =
      Except.error (.httpStatusError 429 "rate limited") := by
    rw [hg]; simp only [gemini_generate]; rw [if_neg hcond]
  refine ⟨?_, ⟨"API error: ", " – rate limited", rfl⟩, ⟨"API error: 429 – ", "", rfl⟩⟩
  rw [webhook_reaches_protected cfg update env mkvs ckvs chatId mid t h1 h2 h3 h4 h5]
  simp [protectedBlock, hge, exceptBranch, hsend]
  rfl

/-- C2 witness: the 429 behaviour at a concrete well-formed update. -/
theorem claim_C2_witness :
    webhook ⟨"tok", "key", "s"⟩ "s"
      (some [("message", Json.obj
        [("chat", Json.obj [("id", Json.num 5)]),
         ("message_id", Json.num 7), ("text", Json.str "hi")])])
      ⟨GeminiBehavior.responds 429 "rate limited" none, []⟩ =
      (.response true none,
       [Call.gemini (buildPrompt (pyStripStr "hi")),
        Call.send (telegram_send (Json.num 5) "API error: 429 – rate limited" (some (Json.num 7)))]) ∧
    strContains "API error: 429 – rate limited" "429" ∧
    strContains "API error: 429 – rate limited" "rate limited" :=
  claim_C2 ⟨"tok", "key", "s"⟩
    [("message", Json.obj
      [("chat", Json.obj [("id", Json.num 5)]),
       ("message_id", Json.num 7), ("text", Json.str "hi")])]
    ⟨GeminiBehavior.responds 429 "rate limited" none, []⟩
    [("chat", Json.obj [("id", Json.num 5)]),
     ("message_id", Json.num 7), ("text", Json.str "hi")]
    [("id", Json.num 5)] (Json.num 5) (Json.num 7) "hi" none
    rfl rfl rfl rfl rfl rfl rfl

/-- C3 counterexample: a body whose `message` value is the number `1` lacks
a text field, yet the handler raises an uncaught `TypeError` from the
membership test (`"text" not in 1`) instead of returning the success
acknowledgment. -/
theorem claim_C3_counterexample :
    webhook ⟨"tok", "key", "s"⟩ "s" (some [("message", Json.num 1)])
      ⟨GeminiBehavior.responds 200 "" (some (Json.obj [])), []⟩ =
    (HandlerResult.raised PyError.typeError, []) := rfl

/-- C3 (amended): for every inbound update with matching secret whose
selected message value is absent or falsy, or is a container for which the
Python membership test for `"text"` is false, the handler returns
`ok = true` and performs no outbound call.  (A truthy non-container message
value instead raises an uncaught `TypeError`.) -/
theorem claim_C3 (cfg : Config) (update : List (String × Json)) (env : Env)
    (h : optFalsy (selectedMessage update) = true ∨
         ∃ m, selectedMessage update = some m ∧ pyIn "text" m = Except.ok false) :
    webhook cfg cfg.webhookSecret (some update) env =
      (.response true none, []) := by
  rcases h with h | ⟨m, hm, hin⟩
  · cases hsel : selectedMessage update with
    | none => simp [webhook, handleUpdate, hsel]
    | some m =>
      rw [hsel] at h
      have hft : m.truthy = false := by simpa [optFalsy, optTruthy] using h
      simp [webhook, handleUpdate, hsel, hft]
  · by_cases htr : m.truthy
    · simp [webhook, handleUpdate, hm, htr, hin]
    · simp [webhook, handleUpdate, hm, htr]

/-- C3 witness: an update carrying only an `edited_message` without text is
acknowledged with no outbound call. -/
theorem claim_C3_witness :
    webhook ⟨"tok", "key", "s"⟩ "s"
      (some [("edited_message", Json.obj [("photo", Json.str "p")])])
      ⟨GeminiBehavior.responds 200 "" (some (Json.obj [])), []⟩ =
      (.response true none, []) :=
  claim_C3 ⟨"tok", "key", "s"⟩
    [("edited_message", Json.obj [("photo", Json.str "p")])]
    ⟨GeminiBehavior.responds 200 "" (some (Json.obj [])), []⟩
    (Or.inr ⟨Json.obj [("photo", Json.str "p")], rfl, rfl⟩)

/-- C4: for every inbound request whose path secret differs from the
configured secret, the handler answers the bad-secret acknowledgment and
performs no outbound call, regardless of the request body (including an
unparseable one) and of the environment. -/
theorem claim_C4 (cfg : Config) (secret : String)
    (body : Option (List (String × Json))) (env : Env)
    (h : secret ≠ cfg.webhookSecret) :
    webhook cfg secret body env =
      (.response false (some "bad secret"), []) := by
  simp [webhook, h]

/-- C4 witness: a wrong secret with an unparseable body is rejected. -/
theorem claim_C4_witness :
    webhook ⟨"tok", "key", "s"⟩ "wrong" none
      ⟨GeminiBehavior.raises (PyError.transportError "x"), []⟩ =
      (.response false (some "bad secret"), []) :=
  claim_C4 ⟨"tok", "key", "s"⟩ "wrong" none
    ⟨GeminiBehavior.raises (PyError.transportError "x"), []⟩ (by decide)

/-- C5: for every well-formed text update, if the provider answers 2xx with
a payload whose extracted text is empty (in particular one that is empty
after stripping whitespace), the message sent to the chat is, character for
character, the fixed bilingual fallback text (English apology, Sinhala
apology, command list, footer). -/
theorem claim_C5 (cfg : Config) (update : List (String × Json)) (env : Env)
    (mkvs ckvs : List (String × Json)) (chatId mid : Json) (t : String)
    (st : Nat) (btxt : String) (data : Json)
    (h1 : selectedMessage update = some (Json.obj mkvs))
    (h2 : jLookup mkvs "chat" = some (Json.obj ckvs))
    (h3 : jLookup ckvs "id" = some chatId)
    (h4 : jLookup mkvs "message_id" = some mid)
    (h5 : jLookup mkvs "text" = some (Json.str t))
    (hg : env.gemini = GeminiBehavior.responds st btxt (some data))
    (hst : 200 ≤ st ∧ st < 300)
    (hex : extractText data = Except.ok "")
    (hsend : sendOutcome env 0 = none) :
    webhook cfg cfg.webhookSecret (some update) env =
      (.response true none,
       [Call.gemini (buildPrompt (pyStripStr t)),
        Call.send (telegram_send chatId fallbackText (some mid))]) := by
  have hge : gemini_generate env.gemini = Except.ok "" := by
    rw [hg]; simp only [gemini_generate]; rw [if_pos hst]; exact hex
  rw [webhook_reaches_protected cfg update env mkvs ckvs chatId mid t h1 h2 h3 h4 h5]
  simp [protectedBlock, hge, hsend]

/-- C5 witness: a provider text that strips to empty yields exactly the
fallback message. -/
theorem claim_C5_witness :
    webhook ⟨"tok", "key", "s"⟩ "s"
      (some [("message", Json.obj
        [("chat", Json.obj [("id", Json.num 5)]),
         ("message_id", Json.num 7), ("text", Json.str "hi")])])
      ⟨GeminiBehavior.responds 200 "" (some (Json.obj
        [("candidates", Json.arr [Json.obj
          [("content", Json.obj [("parts", Json.arr [Json.obj
            [("text", Json.str "  ")]])])]])])), []⟩ =
      (.response true none,
       [Call.gemini (buildPrompt (pyStripStr "hi")),
        Call.send (telegram_send (Json.num 5) fallbackText (some (Json.num 7)))]) :=
  claim_C5 ⟨"tok", "key", "s"⟩
    [("message", Json.obj
      [("chat", Json.obj [("id", Json.num 5)]),
       ("message_id", Json.num 7), ("text", Json.str "hi")])]
    ⟨GeminiBehavior.responds 200 "" (some (Json.obj
      [("candidates", Json.arr [Json.obj
        [("content", Json.obj [("parts", Json.arr [Json.obj
          [("text", Json.str "  ")]])])]])])), []⟩
    [("chat", Json.obj [("id", Json.num 5)]),
     ("message_id", Json.num 7), ("text", Json.str "hi")]
    [("id", Json.num 5)] (Json.num 5) (Json.num 7) "hi"
    200 ""
    (Json.obj [("candidates", Json.arr [Json.obj
      [("content", Json.obj [("parts", Json.arr [Json.obj
        [("text", Json.str "  ")]])])]])])
    rfl rfl rfl rfl rfl rfl (by decide) rfl rfl

/-- C6 counterexample: when the provider call raises a transport error and
the error-reporting send call raises too, the exception escapes the handler
(HTTP 500), so the response is not a success acknowledgment even though the
input is a well-formed text update. -/
theorem claim_C6_counterexample :
    (webhook ⟨"tok", "key", "s"⟩ "s"
      (some [("message", Json.obj
        [("chat", Json.obj [("id", Json.num 5)]),
         ("message_id", Json.num 7), ("text", Json.str "hi")])])
      ⟨GeminiBehavior.raises (PyError.transportError "connection failed"),
       [some (PyError.transportError "connection failed")]⟩).1 =
    HandlerResult.raised (PyError.transportError "connection failed") := rfl

/-- C6 (amended): for every well-formed text update with matching secret,
provided the first messaging-platform send the handler attempts does not
raise, the webhook response is the success acknowledgment whatever the
outcome of the completion-provider call (success, HTTP error, transport
error, malformed response, or any other exception). -/
theorem claim_C6 (cfg : Config) (update : List (String × Json)) (env : Env)
    (mkvs ckvs : List (String × Json)) (chatId mid : Json) (t : String)
    (h1 : selectedMessage update = some (Json.obj mkvs))
    (h2 : jLookup mkvs "chat" = some (Json.obj ckvs))
    (h3 : jLookup ckvs "id" = some chatId)
    (h4 : jLookup mkvs "message_id" = some mid)
    (h5 : jLookup mkvs "text" = some (Json.str t))
    (hsend : sendOutcome env 0 = none) :
    (webhook cfg cfg.webhookSecret (some update) env).1 =
      HandlerResult.response true none := by
  rw [webhook_reaches_protected cfg update env mkvs ckvs chatId mid t h1 h2 h3 h4 h5]
  obtain ⟨txt, heq⟩ := protected_trace chatId mid (pyStripStr t) env hsend
  rw [heq]

/-- C6 witness: the amended statement with a provider transport error but a
working reporting send. -/
theorem claim_C6_witness :
    (webhook ⟨"tok", "key", "s"⟩ "s"
      (some [("message", Json.obj
        [("chat", Json.obj [("id", Json.num 5)]),
         ("message_id", Json.num 7), ("text", Json.str "hi")])])
      ⟨GeminiBehavior.raises (PyError.transportError "connection failed"), []⟩).1 =
      HandlerResult.response true none :=
  claim_C6 ⟨"tok", "key", "s"⟩
    [("message", Json.obj
      [("chat", Json.obj [("id", Json.num 5)]),
       ("message_id", Json.num 7), ("text", Json.str "hi")])]
    ⟨GeminiBehavior.raises (PyError.transportError "connection failed"), []⟩
    [("chat", Json.obj [("id", Json.num 5)]),
     ("message_id", Json.num 7), ("text", Json.str "hi")]
    [("id", Json.num 5)] (Json.num 5) (Json.num 7) "hi"
    rfl rfl rfl rfl rfl rfl

/-- C8: the handler keeps no state between invocations; replaying the same
well-formed update against the same environment yields the same result
twice, and the combined outbound trace contains exactly two independent
completion-provider calls and two send calls, with no deduplication by
message identifier. -/
theorem claim_C8 (cfg : Config) (update : List (String × Json)) (env : Env)
    (mkvs ckvs : List (String × Json)) (chatId mid : Json) (t : String)
    (h1 : selectedMessage update = some (Json.obj mkvs))
    (h2 : jLookup mkvs "chat" = some (Json.obj ckvs))
    (h3 : jLookup ckvs "id" = some chatId)
    (h4 : jLookup mkvs "message_id" = some mid)
    (h5 : jLookup mkvs "text" = some (Json.str t))
    (hsend : sendOutcome env 0 = none) :
    ∃ p sc, processTwice cfg cfg.webhookSecret (some update) env =
      ((HandlerResult.response true none, HandlerResult.response true none),
       [Call.gemini p, Call.send sc, Call.gemini p, Call.send sc]) := by
  have hw := webhook_reaches_protected cfg update env mkvs ckvs chatId mid t h1 h2 h3 h4 h5
  obtain ⟨txt, heq⟩ := protected_trace chatId mid (pyStripStr t) env hsend
  refine ⟨buildPrompt (pyStripStr t), telegram_send chatId txt (some mid), ?_⟩
  simp [processTwice, hw, heq]

/-- C8 witness: replaying a concrete update produces the doubled trace. -/
theorem claim_C8_witness :
    ∃ p sc, processTwice ⟨"tok", "key", "s"⟩ "s"
      (some [("message", Json.obj
        [("chat", Json.obj [("id", Json.num 5)]),
         ("message_id", Json.num 7), ("text", Json.str "hi")])])
      ⟨GeminiBehavior.responds 200 "" (some (Json.obj [])), []⟩ =
      ((HandlerResult.response true none, HandlerResult.response true none),
       [Call.gemini p, Call.send sc, Call.gemini p, Call.send sc]) :=
  claim_C8 ⟨"tok", "key", "s"⟩
    [("message", Json.obj
      [("chat", Json.obj [("id", Json.num 5)]),
       ("message_id", Json.num 7), ("text", Json.str "hi")])]
    ⟨GeminiBehavior.responds 200 "" (some (Json.obj [])), []⟩
    [("chat", Json.obj [("id", Json.num 5)]),
     ("message_id", Json.num 7), ("text", Json.str "hi")]
    [("id", Json.num 5)] (Json.num 5) (Json.num 7) "hi"
    rfl rfl rfl rfl rfl rfl

/-- C9: with a matching secret, a message carrying a text field but missing
the `chat` object, the `id` inside it, or the `message_id` field makes the
handler raise an uncaught exception before the protected block: no outbound
call is made and no acknowledgment is returned. -/
theorem claim_C9 (cfg : Config) (update : List (String × Json)) (env : Env)
    (mkvs : List (String × Json))
    (h1 : selectedMessage update = some (Json.obj mkvs))
    (ht : (jLookup mkvs "text").isSome = true)
    (hbad : jLookup mkvs "chat" = none ∨
      (∃ ckvs, jLookup mkvs "chat" = some (Json.obj ckvs) ∧ jLookup ckvs "id" = none) ∨
      (∃ ckvs cid, jLookup mkvs "chat" = some (Json.obj ckvs) ∧
        jLookup ckvs "id" = some cid ∧ jLookup mkvs "message_id" = none)) :
    ∃ e, webhook cfg cfg.webhookSecret (some update) env =
      (HandlerResult.raised e, []) := by
  have htr : Json.truthy (Json.obj mkvs) = true := by
    cases hmk : jLookup mkvs "text" with
    | none => rw [hmk] at ht; simp at ht
    | some v => exact obj_truthy_of_lookup hmk
  rcases hbad with hc | ⟨ckvs, hc, hid⟩ | ⟨ckvs, cid, hc, hid, hmid⟩
  · exact ⟨.keyError "chat",
      by simp [webhook, handleUpdate, h1, htr, pyIn, ht, extractFields, pySubscript, hc]⟩
  · exact ⟨.keyError "id",
      by simp [webhook, handleUpdate, h1, htr, pyIn, ht, extractFields, pySubscript, hc, hid]⟩
  · exact ⟨.keyError "message_id",
      by simp [webhook, handleUpdate, h1, htr, pyIn, ht, extractFields, pySubscript, hc, hid, hmid]⟩

/-- C9 witness: a message with text but no `chat` object. -/
theorem claim_C9_witness :
    ∃ e, webhook ⟨"tok", "key", "s"⟩ "s"
      (some [("message", Json.obj [("text", Json.str "hello")])])
      ⟨GeminiBehavior.responds 200 "" (some (Json.obj [])), []⟩ =
      (HandlerResult.raised e, []) :=
  claim_C9 ⟨"tok", "key", "s"⟩
    [("message", Json.obj [("text", Json.str "hello")])]
    ⟨GeminiBehavior.responds 200 "" (some (Json.obj [])), []⟩
    [("text", Json.str "hello")]
    rfl rfl (Or.inl rfl)

/-- C10: when both a `message` and an `edited_message` field are present,
the handler's message selection (line 109, which feeds the whole handler)
takes the `message` value when it is truthy and falls back to the
`edited_message` value when the `message` value is falsy. -/
theorem claim_C10 (update : List (String × Json)) (mv ev : Json)
    (hm : jLookup update "message" = some mv)
    (he : jLookup update "edited_message" = some ev) :
    selectedMessage update = some (if mv.truthy then mv else ev) := by
  by_cases h : mv.truthy
  · simp [selectedMessage, pyOr, optTruthy, hm, h]
  · simp [selectedMessage, pyOr, optTruthy, hm, he, h]

/-- C10 witness: with a falsy `message` value and an `edited_message`
present, the edited variant is selected. -/
theorem claim_C10_witness :
    selectedMessage
      [("message", Json.null), ("edited_message", Json.obj [("text", Json.str "e")])] =
      some (if Json.truthy Json.null then Json.null
            else Json.obj [("text", Json.str "e")]) :=
  claim_C10
    [("message", Json.null), ("edited_message", Json.obj [("text", Json.str "e")])]
    Json.null (Json.obj [("text", Json.str "e")]) rfl rfl

/-- On a well-shaped part object, the `"text"` extraction step of line 94
never raises and agrees with the total extraction. -/
theorem extractFromPart_ok (p0 : Json) (h : wellShapedPart p0 = true) :
    extractFromPart p0 = Except.ok (cleanFromPart p0) := by
  cases p0 with
  | obj kvs =>
    cases htx : jLookup kvs "text" with
    | none => simp [extractFromPart, cleanFromPart, pyGetD, htx, pyStrip]
    | some t =>
      cases t with
      | str s => simp [extractFromPart, cleanFromPart, pyGetD, htx, pyStrip]
      | null => simp [wellShapedPart, htx] at h
      | bool b => simp [wellShapedPart, htx] at h
      | num n => simp [wellShapedPart, htx] at h
      | arr xs => simp [wellShapedPart, htx] at h
      | obj o => simp [wellShapedPart, htx] at h
  | null => simp [wellShapedPart] at h
  | bool b => simp [wellShapedPart] at h
  | num n => simp [wellShapedPart] at h
  | str s => simp [wellShapedPart] at h
  | arr xs => simp [wellShapedPart] at h

/-- On a well-shaped content object, the `"parts"` extraction step of line
94 never raises and agrees with the total extraction. -/
theorem extractFromContent_ok (cont : Json) (h : wellShapedContent cont = true) :
    extractFromContent cont = Except.ok (cleanFromContent cont) := by
  cases cont with
  | obj kvs =>
    cases hp : jLookup kvs "parts" with
    | none =>
      simp only [extractFromContent, cleanFromContent, pyGetD, hp, Option.getD, pyIndex0]
      exact extractFromPart_ok (Json.obj []) rfl
    | some v =>
      cases v with
      | arr xs =>
        cases xs with
        | nil => simp [wellShapedContent, hp] at h
        | cons p rest =>
          have hps : wellShapedPart p = true := by
            simpa [wellShapedContent, hp] using h
          simp only [extractFromContent, cleanFromContent, pyGetD, hp, Option.getD, pyIndex0]
          exact extractFromPart_ok p hps
      | null => simp [wellShapedContent, hp] at h
      | bool b => simp [wellShapedContent, hp] at h
      | num n => simp [wellShapedContent, hp] at h
      | str s => simp [wellShapedContent, hp] at h
      | obj o => simp [wellShapedContent, hp] at h
  | null => simp [wellShapedContent] at h
  | bool b => simp [wellShapedContent] at h
  | num n => simp [wellShapedContent] at h
  | str s => simp [wellShapedContent] at h
  | arr xs => simp [wellShapedContent] at h

/-- On a well-shaped candidate object, the `"content"` extraction step of
line 94 never raises and agrees with the total extraction. -/
theorem extractFromCandidate_ok (c0 : Json) (h : wellShapedCandidate c0 = true) :
    extractFromCandidate c0 = Except.ok (cleanFromCandidate c0) := by
  cases c0 with
  | obj kvs =>
    cases hc : jLookup kvs "content" with
    | none =>
      simp only [extractFromCandidate, cleanFromCandidate, pyGetD, hc, Option.getD]
      exact extractFromContent_ok (Json.obj []) rfl
    | some c =>
      have hcs : wellShapedContent c = true := by
        simpa [wellShapedCandidate, hc] using h
      simp only [extractFromCandidate, cleanFromCandidate, pyGetD, hc, Option.getD]
      exact extractFromContent_ok c hcs
  | null => simp [wellShapedCandidate] at h
  | bool b => simp [wellShapedCandidate] at h
  | num n => simp [wellShapedCandidate] at h
  | str s => simp [wellShapedCandidate] at h
  | arr xs => simp [wellShapedCandidate] at h

/-- C7 counterexample: a 2xx payload whose `candidates` field is present
but an empty list makes the extraction raise an `IndexError` (caught only
by the handler's generic `except`), so the extraction is not total. -/
theorem claim_C7_counterexample :
    extractText (Json.obj [("candidates", Json.arr [])]) =
      Except.error PyError.indexError := rfl

/-- C7 (amended): on every payload whose expected fields, where present,
have their expected shapes (`candidates`: non-empty list with an object
head; `content`: object; `parts`: non-empty list with an object head;
`text`: string), the extraction of line 94 never raises and equals the
total extraction `cleanExtract`, which yields `""` whenever any expected
field is absent; a present field with an empty-list or wrong-typed value
raises instead. -/
theorem claim_C7 (data : Json) (h : wellShapedPayload data = true) :
    extractText data = Except.ok (cleanExtract data) := by
  cases data with
  | obj kvs =>
    cases hc : jLookup kvs "candidates" with
    | none =>
      simp only [extractText, cleanExtract, pyGetD, hc, Option.getD, pyIndex0]
      exact extractFromCandidate_ok (Json.obj []) rfl
    | some v =>
      cases v with
      | arr xs =>
        cases xs with
        | nil => simp [wellShapedPayload, hc] at h
        | cons c rest =>
          have hcs : wellShapedCandidate c = true := by
            simpa [wellShapedPayload, hc] using h
          simp only [extractText, cleanExtract, pyGetD, hc, Option.getD, pyIndex0]
          exact extractFromCandidate_ok c hcs
      | null => simp [wellShapedPayload, hc] at h
      | bool b => simp [wellShapedPayload, hc] at h
      | num n => simp [wellShapedPayload, hc] at h
      | str s => simp [wellShapedPayload, hc] at h
      | obj o => simp [wellShapedPayload, hc] at h
  | null => simp [wellShapedPayload] at h
  | bool b => simp [wellShapedPayload] at h
  | num n => simp [wellShapedPayload] at h
  | str s => simp [wellShapedPayload] at h
  | arr xs => simp [wellShapedPayload] at h

/-- C7 witness: on the empty-object payload every expected field is absent
and the extraction degrades to the empty string without raising. -/
theorem claim_C7_witness :
    extractText (Json.obj []) = Except.ok "" :=
  claim_C7 (Json.obj []) rfl
